import Mathlib

/-!
Verification of the scoring and aggregation engine of the story-predictor
pipeline (`analysis.py`).  Dictionaries are embedded as association lists in
insertion order; Python floats are idealised as real numbers.
-/

namespace StoryPredictor

/-- Embedding of a question record: only the ground-truth `answer` field is
read by the engine (`question_data["answer"]`). -/
structure Question where
  answer : String
deriving DecidableEq

/-- Embedding of a story record from `results.json`.  Optional fields are
`Option`s: `error` is the optional error flag (`none` = key absent), `title`
is the optional `Title` field, `tags` and `questions` default to `[]` via
`dict.get` in the source. -/
structure StoryData where
  error : Option Bool
  title : Option String
  tags : Option (List String)
  questions : Option (List Question)
deriving DecidableEq

/-- A model's forecast mapping for one story: question-index string to
predicted probability. -/
abbrev ForecastMap := List (String × ℝ)

/-- A model's forecast file: story id to per-question forecast mapping. -/
abbrev Forecasts := List (String × ForecastMap)

/-- Dictionary lookup on an association list (first matching key). -/
def alookup {β : Type} : List (String × β) → String → Option β
  | [], _ => none
  | (k, v) :: rest, s => if k = s then some v else alookup rest s

/-- Embedding of `calculate_log_score` (analysis.py lines 10-21):
`log(max(prediction, 0.01))` when `actual == "yes"`, otherwise
`log(max(1 - prediction, 0.01))`. -/
noncomputable def calculate_log_score (prediction : ℝ) (actual : String) : ℝ :=
  if actual = "yes" then Real.log (max prediction 0.01)
  else Real.log (max (1 - prediction) 0.01)

/-- Modelled from the spec: `clip(x, lo, hi)`, clamping `x` into `[lo, hi]`.
Used to compare the spec's contract `ln(clip(p, 0.01, 1.0))` with the
source, which only clips from below. -/
noncomputable def clip (x lo hi : ℝ) : ℝ := min (max x lo) hi

theorem calc_yes (p : ℝ) : calculate_log_score p "yes" = Real.log (max p 0.01) := by
  simp [calculate_log_score]

theorem calc_not_yes (p : ℝ) (actual : String) (h : actual ≠ "yes") :
    calculate_log_score p actual = Real.log (max (1 - p) 0.01) := by
  simp [calculate_log_score, h]

/-- C1 counterexample: on the actual value "ambiguous", the code does not
fail; it silently takes the "no" branch and returns the finite log score
`ln(1/5)` for prediction `4/5`. -/
theorem calc_log_score_ambiguous_counterexample :
    calculate_log_score (4/5) "ambiguous" = calculate_log_score (4/5) "no" ∧
      calculate_log_score (4/5) "no" = Real.log (1/5) := by
  constructor
  · rw [calc_not_yes _ _ (by decide), calc_not_yes _ _ (by decide)]
  · rw [calc_not_yes _ _ (by decide)]
    norm_num

/-- C1 amended: for every actual value other than the literal "yes"
(including "ambiguous"), `calculate_log_score` silently treats the value as
"no" and returns the log score `ln(max(1 - p, 0.01))`; it never raises a
domain error. -/
theorem calc_log_score_non_yes_coerced (p : ℝ) (actual : String)
    (h : actual ≠ "yes") :
    calculate_log_score p actual = Real.log (max (1 - p) 0.01) :=
  calc_not_yes p actual h

/-- Witness for C1 amended at prediction 3/10 and actual "ambiguous". -/
theorem calc_log_score_non_yes_coerced_witness :
    calculate_log_score (3/10) "ambiguous" = Real.log (max (1 - 3/10) 0.01) :=
  calc_log_score_non_yes_coerced (3/10) "ambiguous" (by decide)

/-- C4 counterexample: the score is not strictly increasing on all of
(0, 1] for "yes" (nor strictly decreasing on all of [0, 1) for "no"):
at p = 1/200 and q = 1/100 both "yes"-scores are clipped to ln(0.01). -/
theorem calc_log_score_strict_mono_counterexample :
    ¬ ((∀ p q : ℝ, 0 < p → p ≤ 1 → 0 < q → q ≤ 1 → p < q →
          calculate_log_score p "yes" < calculate_log_score q "yes") ∧
       (∀ p q : ℝ, 0 ≤ p → p < 1 → 0 ≤ q → q < 1 → p < q →
          calculate_log_score q "no" < calculate_log_score p "no")) := by
  rintro ⟨hyes, -⟩
  have h := hyes (1/200) (1/100) (by norm_num) (by norm_num) (by norm_num)
    (by norm_num) (by norm_num)
  have e1 : calculate_log_score (1/200) "yes" = Real.log 0.01 := by
    rw [calc_yes]; norm_num
  have e2 : calculate_log_score (1/100) "yes" = Real.log 0.01 := by
    rw [calc_yes]
    congr 1
    rw [max_eq_left (by norm_num)]
    norm_num
  rw [e1, e2] at h
  exact lt_irrefl _ h

/-- C4 amended: away from the clipping region, monotonicity holds —
`score(·, "yes")` is strictly increasing on [0.01, 1] and
`score(·, "no")` is strictly decreasing on [0, 0.99]. -/
theorem calc_log_score_strict_mono_amended :
    (∀ p q : ℝ, 1/100 ≤ p → p < q → q ≤ 1 →
        calculate_log_score p "yes" < calculate_log_score q "yes") ∧
    (∀ p q : ℝ, 0 ≤ p → p < q → q ≤ 99/100 →
        calculate_log_score q "no" < calculate_log_score p "no") := by
  constructor
  · intro p q hp hpq _
    rw [calc_yes, calc_yes]
    rw [max_eq_left (by linarith), max_eq_left (by linarith)]
    exact Real.log_lt_log (by linarith) hpq
  · intro p q _ hpq hq
    rw [calc_not_yes _ _ (by decide), calc_not_yes _ _ (by decide)]
    rw [max_eq_left (by linarith), max_eq_left (by linarith)]
    exact Real.log_lt_log (by linarith) (by linarith)

/-- Witness for C4 amended: 1/2 < 3/4 inside the unclipped region. -/
theorem calc_log_score_strict_mono_amended_witness :
    calculate_log_score (1/2) "yes" < calculate_log_score (3/4) "yes" ∧
      calculate_log_score (3/4) "no" < calculate_log_score (1/2) "no" :=
  ⟨calc_log_score_strict_mono_amended.1 (1/2) (3/4) (by norm_num) (by norm_num)
      (by norm_num),
   calc_log_score_strict_mono_amended.2 (1/2) (3/4) (by norm_num) (by norm_num)
      (by norm_num)⟩

/-- C5: on [0, 1] the code's one-sided clip agrees with the spec's
`ln(clip(·, 0.01, 1.0))` contract, and the clip boundary values hold:
`score(0, "yes") = score(0.01, "yes") = score(1, "no") = ln(0.01)`. -/
theorem calc_log_score_clip_contract :
    (∀ p : ℝ, 0 ≤ p → p ≤ 1 →
        calculate_log_score p "yes" = Real.log (clip p 0.01 1) ∧
        calculate_log_score p "no" = Real.log (clip (1 - p) 0.01 1)) ∧
    calculate_log_score 0 "yes" = Real.log 0.01 ∧
    calculate_log_score 0.01 "yes" = Real.log 0.01 ∧
    calculate_log_score 1 "no" = Real.log 0.01 := by
  refine ⟨fun p h0 h1 => ⟨?_, ?_⟩, ?_, ?_, ?_⟩
  · rw [calc_yes, clip, min_eq_left (max_le h1 (by norm_num))]
  · rw [calc_not_yes _ _ (by decide), clip,
      min_eq_left (max_le (by linarith) (by norm_num))]
  · rw [calc_yes]; norm_num
  · rw [calc_yes]
    congr 1
    exact max_eq_left le_rfl
  · rw [calc_not_yes _ _ (by decide)]; norm_num

/-- Witness for C5 at p = 1/2 (plus the closed boundary conjuncts). -/
theorem calc_log_score_clip_contract_witness :
    calculate_log_score (1/2) "yes" = Real.log (clip (1/2) 0.01 1) ∧
      calculate_log_score (1/2) "no" = Real.log (clip (1 - 1/2) 0.01 1) :=
  calc_log_score_clip_contract.1 (1/2) (by norm_num) (by norm_num)

/-- C6: for every prediction in [0, 1] and actual in the yes/no domain,
the log score is at most 0. -/
theorem calc_log_score_nonpos (p : ℝ) (actual : String)
    (h0 : 0 ≤ p) (h1 : p ≤ 1) (ha : actual = "yes" ∨ actual = "no") :
    calculate_log_score p actual ≤ 0 := by
  rcases ha with ha | ha <;> subst ha
  · rw [calc_yes]
    exact Real.log_nonpos (le_max_of_le_right (by norm_num))
      (max_le h1 (by norm_num))
  · rw [calc_not_yes _ _ (by decide)]
    exact Real.log_nonpos (le_max_of_le_right (by norm_num))
      (max_le (by linarith) (by norm_num))

/-- Witness for C6 at p = 1/3, actual "yes". -/
theorem calc_log_score_nonpos_witness :
    calculate_log_score (1/3) "yes" ≤ 0 :=
  calc_log_score_nonpos (1/3) "yes" (by norm_num) (by norm_num) (Or.inl rfl)

/-!
Embedding of `analyze_predictions` (analysis.py lines 38-115).  The loop
over `results.items()` becomes a left fold over the association list; each
mutable accumulator dictionary becomes a list field that only ever has
fresh blocks appended (faithful to the source for inputs with unique keys,
i.e. for anything loadable from JSON).
-/

/-- Per-question loop body (analysis.py lines 67-92) for one story, given
the story's flash and flash-lite forecast maps.  Returns, in question
order: the flash `all_scores` entries, the `story_scores` appends (made
only in the flash branch, line 82), and the flash-lite `all_scores`
entries. -/
noncomputable def processQuestions (ff fl : ForecastMap) :
    List Question → ℕ → List (String × ℝ) × List ℝ × List (String × ℝ)
  | [], _ => ([], [], [])
  | q :: rest, idx =>
    let key := toString idx
    let tail := processQuestions ff fl rest (idx + 1)
    let fq := match alookup ff key with
      | some p => (key, calculate_log_score p q.answer) :: tail.1
      | none => tail.1
    let sl := match alookup ff key with
      | some p => calculate_log_score p q.answer :: tail.2.1
      | none => tail.2.1
    let flq := match alookup fl key with
      | some p => (key, calculate_log_score p q.answer) :: tail.2.2
      | none => tail.2.2
    (fq, sl, flq)

/-- Accumulator state of the story loop (analysis.py lines 40-48). -/
structure AnalyzeAcc where
  flash : List (String × List (String × ℝ))
  flash_lite : List (String × List (String × ℝ))
  story_scores : List (String × List ℝ)
  story_titles : List (String × String)
  story_tags : List (String × List String)

/-- One iteration of the story loop (analysis.py lines 51-92): skip
error-flagged records, record title and tags, skip stories absent from
either model's forecasts, then score the questions. -/
noncomputable def processStory (ffc flfc : Forecasts) (acc : AnalyzeAcc)
    (entry : String × StoryData) : AnalyzeAcc :=
  if entry.2.error.getD false then acc
  else
    let sid := entry.1
    let acc1 : AnalyzeAcc :=
      { acc with
        story_titles := acc.story_titles ++ [(sid, entry.2.title.getD ("Story " ++ sid))],
        story_tags := acc.story_tags ++ [(sid, entry.2.tags.getD [])] }
    match alookup ffc sid, alookup flfc sid with
    | some ff, some fl =>
      let qa := processQuestions ff fl (entry.2.questions.getD []) 0
      { acc1 with
        flash := if qa.1.isEmpty then acc1.flash else acc1.flash ++ [(sid, qa.1)],
        story_scores :=
          if qa.2.1.isEmpty then acc1.story_scores
          else acc1.story_scores ++ [(sid, qa.2.1)],
        flash_lite :=
          if qa.2.2.isEmpty then acc1.flash_lite
          else acc1.flash_lite ++ [(sid, qa.2.2)] }
    | _, _ => acc1

/-- Arithmetic mean of a list of reals (`np.mean`). -/
noncomputable def listMean (l : List ℝ) : ℝ := l.sum / l.length

/-- One `defaultdict(list)` append: extend the list at the key if present,
otherwise create the key at the end. -/
def dlAppend {α : Type} : List (String × List α) → String → α → List (String × List α)
  | [], k, v => [(k, [v])]
  | (k', l) :: rest, k, v =>
    if k' = k then (k', l ++ [v]) :: rest else (k', l) :: dlAppend rest k v

/-- The tag-aggregation loop (analysis.py lines 107-111): for each story
average in order, append the average to the pool of every tag the story
carries. -/
noncomputable def tagScoresFold (story_tags : List (String × List String))
    (ts : List (String × List ℝ)) (avgs : List (String × ℝ)) :
    List (String × List ℝ) :=
  avgs.foldl
    (fun ts p =>
      ((alookup story_tags p.1).getD []).foldl (fun ts t => dlAppend ts t p.2) ts)
    ts

/-- The five mappings returned by `analyze_predictions`, plus the two
per-model overall averages. -/
structure AnalyzeResult where
  all_scores_flash : List (String × List (String × ℝ))
  all_scores_flash_lite : List (String × List (String × ℝ))
  story_avg_scores : List (String × ℝ)
  model_avg_flash : ℝ
  model_avg_flash_lite : ℝ
  tag_avg_scores : List (String × ℝ)
  story_titles : List (String × String)

/-- Embedding of `analyze_predictions` (analysis.py lines 38-115). -/
noncomputable def analyze_predictions (results : List (String × StoryData))
    (ffc flfc : Forecasts) : AnalyzeResult :=
  let acc := results.foldl (processStory ffc flfc) ⟨[], [], [], [], []⟩
  let story_avg := acc.story_scores.map (fun p => (p.1, listMean p.2))
  let flash_all := (acc.flash.map (fun p => p.2.map Prod.snd)).flatten
  let flash_lite_all := (acc.flash_lite.map (fun p => p.2.map Prod.snd)).flatten
  let tag_scores := tagScoresFold acc.story_tags [] story_avg
  { all_scores_flash := acc.flash
    all_scores_flash_lite := acc.flash_lite
    story_avg_scores := story_avg
    model_avg_flash := listMean flash_all
    model_avg_flash_lite := listMean flash_lite_all
    tag_avg_scores := tag_scores.map (fun p => (p.1, listMean p.2))
    story_titles := acc.story_titles }

/-- Embedding of the ranking in `main` (analysis.py lines 223-231):
`sorted(story_avg_scores.items(), key=score, reverse=True)[:k]` and
`sorted(story_avg_scores.items(), key=score)[:k]`, with Python's stable
sort modelled by stable insertion sort. -/
noncomputable def rank (story_avg : List (String × ℝ)) (k : ℕ) :
    List (String × ℝ) × List (String × ℝ) :=
  ((story_avg.insertionSort fun x y => x.2 ≥ y.2).take k,
   (story_avg.insertionSort fun x y => x.2 ≤ y.2).take k)

/-!
Characterisation layer: each accumulator field of the story fold is the
`filterMap` of a per-entry contribution function over the results list.
-/

/-- Contribution of one results entry to `all_scores["flash"]`. -/
noncomputable def flashContrib (ffc flfc : Forecasts) (e : String × StoryData) :
    Option (String × List (String × ℝ)) :=
  if e.2.error.getD false then none
  else
    match alookup ffc e.1, alookup flfc e.1 with
    | some ff, some fl =>
      let qa := processQuestions ff fl (e.2.questions.getD []) 0
      if qa.1.isEmpty then none else some (e.1, qa.1)
    | _, _ => none

/-- Contribution of one results entry to `all_scores["flash_lite"]`. -/
noncomputable def flashLiteContrib (ffc flfc : Forecasts) (e : String × StoryData) :
    Option (String × List (String × ℝ)) :=
  if e.2.error.getD false then none
  else
    match alookup ffc e.1, alookup flfc e.1 with
    | some ff, some fl =>
      let qa := processQuestions ff fl (e.2.questions.getD []) 0
      if qa.2.2.isEmpty then none else some (e.1, qa.2.2)
    | _, _ => none

/-- Contribution of one results entry to `story_scores`. -/
noncomputable def storyContrib (ffc flfc : Forecasts) (e : String × StoryData) :
    Option (String × List ℝ) :=
  if e.2.error.getD false then none
  else
    match alookup ffc e.1, alookup flfc e.1 with
    | some ff, some fl =>
      let qa := processQuestions ff fl (e.2.questions.getD []) 0
      if qa.2.1.isEmpty then none else some (e.1, qa.2.1)
    | _, _ => none

/-- Contribution of one results entry to `story_titles`. -/
def titleContrib (e : String × StoryData) : Option (String × String) :=
  if e.2.error.getD false then none
  else some (e.1, e.2.title.getD ("Story " ++ e.1))

/-- Contribution of one results entry to `story_tags`. -/
def tagsContrib (e : String × StoryData) : Option (String × List String) :=
  if e.2.error.getD false then none
  else some (e.1, e.2.tags.getD [])

theorem processStory_flash (ffc flfc : Forecasts) (acc : AnalyzeAcc)
    (e : String × StoryData) :
    (processStory ffc flfc acc e).flash =
      acc.flash ++ (flashContrib ffc flfc e).toList := by
  rcases e with ⟨sid, d⟩
  unfold processStory flashContrib
  by_cases he : d.error.getD false = true
  · simp [he]
  · simp only [Bool.not_eq_true] at he
    cases h1 : alookup ffc sid <;> cases h2 : alookup flfc sid <;>
      simp only [he, h1, h2, Bool.false_eq_true, if_false] <;> (try split) <;> simp

theorem processStory_flash_lite (ffc flfc : Forecasts) (acc : AnalyzeAcc)
    (e : String × StoryData) :
    (processStory ffc flfc acc e).flash_lite =
      acc.flash_lite ++ (flashLiteContrib ffc flfc e).toList := by
  rcases e with ⟨sid, d⟩
  unfold processStory flashLiteContrib
  by_cases he : d.error.getD false = true
  · simp [he]
  · simp only [Bool.not_eq_true] at he
    cases h1 : alookup ffc sid <;> cases h2 : alookup flfc sid <;>
      simp only [he, h1, h2, Bool.false_eq_true, if_false] <;> (try split) <;> simp

theorem processStory_story_scores (ffc flfc : Forecasts) (acc : AnalyzeAcc)
    (e : String × StoryData) :
    (processStory ffc flfc acc e).story_scores =
      acc.story_scores ++ (storyContrib ffc flfc e).toList := by
  rcases e with ⟨sid, d⟩
  unfold processStory storyContrib
  by_cases he : d.error.getD false = true
  · simp [he]
  · simp only [Bool.not_eq_true] at he
    cases h1 : alookup ffc sid <;> cases h2 : alookup flfc sid <;>
      simp only [he, h1, h2, Bool.false_eq_true, if_false] <;> (try split) <;> simp

theorem processStory_story_titles (ffc flfc : Forecasts) (acc : AnalyzeAcc)
    (e : String × StoryData) :
    (processStory ffc flfc acc e).story_titles =
      acc.story_titles ++ (titleContrib e).toList := by
  rcases e with ⟨sid, d⟩
  unfold processStory titleContrib
  by_cases he : d.error.getD false = true
  · simp [he]
  · simp only [Bool.not_eq_true] at he
    cases h1 : alookup ffc sid <;> cases h2 : alookup flfc sid <;>
      simp [he, h1, h2]

theorem processStory_story_tags (ffc flfc : Forecasts) (acc : AnalyzeAcc)
    (e : String × StoryData) :
    (processStory ffc flfc acc e).story_tags =
      acc.story_tags ++ (tagsContrib e).toList := by
  rcases e with ⟨sid, d⟩
  unfold processStory tagsContrib
  by_cases he : d.error.getD false = true
  · simp [he]
  · simp only [Bool.not_eq_true] at he
    cases h1 : alookup ffc sid <;> cases h2 : alookup flfc sid <;>
      simp [he, h1, h2]

theorem toList_append_filterMap {A B : Type} (f : A → Option B) (a : A)
    (l : List A) (acc : List B) :
    acc ++ (f a).toList ++ l.filterMap f = acc ++ (a :: l).filterMap f := by
  cases h : f a <;> simp [List.filterMap_cons, h]

theorem foldl_processStory (ffc flfc : Forecasts) :
    ∀ (results : List (String × StoryData)) (acc : AnalyzeAcc),
      results.foldl (processStory ffc flfc) acc =
        { flash := acc.flash ++ results.filterMap (flashContrib ffc flfc)
          flash_lite := acc.flash_lite ++ results.filterMap (flashLiteContrib ffc flfc)
          story_scores := acc.story_scores ++ results.filterMap (storyContrib ffc flfc)
          story_titles := acc.story_titles ++ results.filterMap titleContrib
          story_tags := acc.story_tags ++ results.filterMap tagsContrib }
  | [], acc => by simp
  | e :: rest, acc => by
    rw [List.foldl_cons, foldl_processStory ffc flfc rest]
    rw [processStory_flash, processStory_flash_lite, processStory_story_scores,
      processStory_story_titles, processStory_story_tags]
    rw [toList_append_filterMap, toList_append_filterMap, toList_append_filterMap,
      toList_append_filterMap, toList_append_filterMap]

/-- Closed form of `analyze_predictions` in terms of the per-entry
contribution functions. -/
theorem analyze_eq (results : List (String × StoryData)) (ffc flfc : Forecasts) :
    analyze_predictions results ffc flfc =
      { all_scores_flash := results.filterMap (flashContrib ffc flfc)
        all_scores_flash_lite := results.filterMap (flashLiteContrib ffc flfc)
        story_avg_scores :=
          (results.filterMap (storyContrib ffc flfc)).map fun p => (p.1, listMean p.2)
        model_avg_flash :=
          listMean ((results.filterMap (flashContrib ffc flfc)).map
            (fun p => p.2.map Prod.snd)).flatten
        model_avg_flash_lite :=
          listMean ((results.filterMap (flashLiteContrib ffc flfc)).map
            (fun p => p.2.map Prod.snd)).flatten
        tag_avg_scores :=
          (tagScoresFold (results.filterMap tagsContrib) []
            ((results.filterMap (storyContrib ffc flfc)).map
              fun p => (p.1, listMean p.2))).map fun p => (p.1, listMean p.2)
        story_titles := results.filterMap titleContrib } := by
  unfold analyze_predictions
  rw [foldl_processStory]
  rfl

/-!
Association-list lemmas.
-/

theorem alookup_eq_none {β : Type} :
    ∀ (l : List (String × β)) (s : String), s ∉ l.map Prod.fst → alookup l s = none
  | [], _, _ => rfl
  | (k, v) :: rest, s, h => by
    have hk : k ≠ s := fun hks => h (by simp [hks])
    have hr : s ∉ rest.map Prod.fst := fun hm => h (by simp [hm])
    simp [alookup, hk, alookup_eq_none rest s hr]

theorem alookup_append {β : Type} :
    ∀ (l₁ l₂ : List (String × β)) (s : String),
      alookup (l₁ ++ l₂) s =
        match alookup l₁ s with
        | some v => some v
        | none => alookup l₂ s
  | [], _, _ => rfl
  | (k, v) :: rest, l₂, s => by
    by_cases hk : k = s <;> simp [alookup, hk, alookup_append rest l₂ s]

theorem alookup_map_value {β γ : Type} (g : β → γ) :
    ∀ (l : List (String × β)) (s : String),
      alookup (l.map fun p => (p.1, g p.2)) s = (alookup l s).map g
  | [], _ => rfl
  | (k, v) :: rest, s => by
    by_cases hk : k = s <;> simp [alookup, hk, alookup_map_value g rest s]

theorem alookup_mem {β : Type} :
    ∀ {l : List (String × β)} {s : String} {v : β},
      alookup l s = some v → (s, v) ∈ l
  | (k, w) :: rest, s, v, h => by
    by_cases hk : k = s
    · subst hk
      simp only [alookup, eq_self_iff_true, if_true, Option.some.injEq] at h
      simp [h]
    · simp only [alookup, if_neg hk] at h
      exact List.mem_cons_of_mem _ (alookup_mem h)

theorem mem_alookup {β : Type} :
    ∀ {l : List (String × β)}, (l.map Prod.fst).Nodup →
      ∀ {s : String} {v : β}, (s, v) ∈ l → alookup l s = some v
  | (k, w) :: rest, hnd, s, v, h => by
    simp only [List.map_cons, List.nodup_cons] at hnd
    rcases List.mem_cons.1 h with h1 | h1
    · rcases Prod.mk.injEq .. ▸ h1 with ⟨hk, hv⟩
      simp [alookup, hk.symm, hv]
    · have hk : k ≠ s := by
        rintro rfl
        exact hnd.1 (List.mem_map.2 ⟨(k, v), h1, rfl⟩)
      simp only [alookup, if_neg hk]
      exact mem_alookup hnd.2 h1

theorem alookup_perm {β : Type} {l l' : List (String × β)}
    (hp : l.Perm l') (hnd : (l.map Prod.fst).Nodup) (s : String) :
    alookup l s = alookup l' s := by
  have hnd' : (l'.map Prod.fst).Nodup := ((hp.map Prod.fst).nodup_iff).1 hnd
  cases h : alookup l s with
  | some v => exact (mem_alookup hnd' (hp.subset (alookup_mem h))).symm
  | none =>
    have hs : s ∉ l.map Prod.fst := by
      intro hm
      rcases List.mem_map.1 hm with ⟨⟨s', v⟩, hmem, hfst⟩
      cases hfst
      rw [mem_alookup hnd hmem] at h
      cases h
    exact (alookup_eq_none l' s fun hm => hs ((hp.map Prod.fst).mem_iff.2 hm)).symm

theorem keys_filterMap_sublist {A B : Type}
    (f : (String × A) → Option (String × B))
    (hf : ∀ e p, f e = some p → p.1 = e.1) :
    ∀ l : List (String × A),
      ((l.filterMap f).map Prod.fst).Sublist (l.map Prod.fst)
  | [] => List.Sublist.refl []
  | e :: rest => by
    cases h : f e with
    | none =>
      rw [List.filterMap_cons, h]
      exact (keys_filterMap_sublist f hf rest).cons e.1
    | some p =>
      rw [List.filterMap_cons, h, List.map_cons, List.map_cons, hf e p h]
      exact (keys_filterMap_sublist f hf rest).cons₂ e.1

theorem nodup_keys_filterMap {A B : Type}
    {f : (String × A) → Option (String × B)}
    (hf : ∀ e p, f e = some p → p.1 = e.1)
    {l : List (String × A)} (hnd : (l.map Prod.fst).Nodup) :
    ((l.filterMap f).map Prod.fst).Nodup :=
  (keys_filterMap_sublist f hf l).nodup hnd

theorem alookup_filterMap {A B : Type}
    {f : (String × A) → Option (String × B)}
    (hf : ∀ e p, f e = some p → p.1 = e.1) :
    ∀ {l : List (String × A)}, (l.map Prod.fst).Nodup → ∀ (s : String),
      alookup (l.filterMap f) s = (alookup l s).bind fun d => (f (s, d)).map Prod.snd
  | [], _, s => rfl
  | (k, a) :: rest, hnd, s => by
    simp only [List.map_cons, List.nodup_cons] at hnd
    by_cases hk : k = s
    · subst hk
      rw [List.filterMap_cons]
      cases h : f (k, a) with
      | none =>
        rw [alookup_filterMap hf hnd.2 k, alookup_eq_none rest k hnd.1]
        simp [alookup, h]
      | some p =>
        have hp1 : p.1 = k := hf _ _ h
        cases p
        cases hp1
        simp [alookup, h]
    · rw [List.filterMap_cons]
      cases h : f (k, a) with
      | none => simp [alookup, hk, alookup_filterMap hf hnd.2 s]
      | some p =>
        have hp1 : p.1 = (k, a).1 := hf _ _ h
        cases p
        cases hp1
        simp [alookup, hk, alookup_filterMap hf hnd.2 s]

/-!
Facts about the contribution functions.
-/

theorem flashContrib_key (ffc flfc : Forecasts) (e : String × StoryData)
    (p : String × List (String × ℝ)) (h : flashContrib ffc flfc e = some p) :
    p.1 = e.1 := by
  unfold flashContrib at h
  split at h
  · cases h
  · split at h
    · simp only at h
      split at h
      · cases h
      · cases h; rfl
    · cases h

theorem flashLiteContrib_key (ffc flfc : Forecasts) (e : String × StoryData)
    (p : String × List (String × ℝ)) (h : flashLiteContrib ffc flfc e = some p) :
    p.1 = e.1 := by
  unfold flashLiteContrib at h
  split at h
  · cases h
  · split at h
    · simp only at h
      split at h
      · cases h
      · cases h; rfl
    · cases h

theorem storyContrib_key (ffc flfc : Forecasts) (e : String × StoryData)
    (p : String × List ℝ) (h : storyContrib ffc flfc e = some p) :
    p.1 = e.1 := by
  unfold storyContrib at h
  split at h
  · cases h
  · split at h
    · simp only at h
      split at h
      · cases h
      · cases h; rfl
    · cases h

theorem titleContrib_key (e : String × StoryData) (p : String × String)
    (h : titleContrib e = some p) : p.1 = e.1 := by
  unfold titleContrib at h
  split at h
  · cases h
  · cases h; rfl

theorem tagsContrib_key (e : String × StoryData) (p : String × List String)
    (h : tagsContrib e = some p) : p.1 = e.1 := by
  unfold tagsContrib at h
  split at h
  · cases h
  · cases h; rfl

theorem flashContrib_error (ffc flfc : Forecasts) (e : String × StoryData)
    (he : e.2.error.getD false = true) : flashContrib ffc flfc e = none := by
  simp [flashContrib, he]

theorem flashLiteContrib_error (ffc flfc : Forecasts) (e : String × StoryData)
    (he : e.2.error.getD false = true) : flashLiteContrib ffc flfc e = none := by
  simp [flashLiteContrib, he]

theorem storyContrib_error (ffc flfc : Forecasts) (e : String × StoryData)
    (he : e.2.error.getD false = true) : storyContrib ffc flfc e = none := by
  simp [storyContrib, he]

theorem titleContrib_error (e : String × StoryData)
    (he : e.2.error.getD false = true) : titleContrib e = none := by
  simp [titleContrib, he]

theorem tagsContrib_error (e : String × StoryData)
    (he : e.2.error.getD false = true) : tagsContrib e = none := by
  simp [tagsContrib, he]

theorem titleContrib_ok (e : String × StoryData)
    (he : e.2.error.getD false = false) :
    titleContrib e = some (e.1, e.2.title.getD ("Story " ++ e.1)) := by
  simp [titleContrib, he]

theorem storyContrib_missing (ffc flfc : Forecasts) (e : String × StoryData)
    (hm : alookup ffc e.1 = none ∨ alookup flfc e.1 = none) :
    storyContrib ffc flfc e = none := by
  unfold storyContrib
  rcases hm with hm | hm
  · cases h2 : alookup flfc e.1 <;> simp [hm, h2]
  · cases h1 : alookup ffc e.1 <;> simp [hm, h1]

theorem filterMap_middle_none {B : Type} (l1 l2 : List (String × StoryData))
    (e : String × StoryData) (f : (String × StoryData) → Option (String × B))
    (hf : f e = none) :
    (l1 ++ e :: l2).filterMap f = (l1 ++ l2).filterMap f := by
  simp [List.filterMap_append, List.filterMap_cons, hf]

theorem alookup_middle {β : Type} (l1 l2 : List (String × β)) (s : String)
    (d : β) (hs1 : s ∉ l1.map Prod.fst) :
    alookup (l1 ++ (s, d) :: l2) s = some d := by
  rw [alookup_append, alookup_eq_none l1 s hs1]
  simp [alookup]

theorem alookup_middle_ne {β : Type} (l1 l2 : List (String × β)) (s k : String)
    (d : β) (hk : k ≠ s) :
    alookup (l1 ++ (s, d) :: l2) k = alookup (l1 ++ l2) k := by
  rw [alookup_append, alookup_append]
  have hsk : ¬ s = k := fun hh => hk hh.symm
  have : alookup ((s, d) :: l2) k = alookup l2 k := by
    simp [alookup, hsk]
  rw [this]

theorem nodup_keys_middle {β : Type} {l1 l2 : List (String × β)} {s : String}
    {d : β} (hnd : ((l1 ++ (s, d) :: l2).map Prod.fst).Nodup) :
    s ∉ l1.map Prod.fst ∧ s ∉ l2.map Prod.fst ∧
      ((l1 ++ l2).map Prod.fst).Nodup := by
  rw [List.map_append, List.map_cons] at hnd
  refine ⟨fun hm => List.disjoint_of_nodup_append hnd hm (List.mem_cons_self s _), ?_, ?_⟩
  · exact (List.Nodup.of_append_right hnd).not_mem
  · rw [List.map_append]
    have hsub : (l1.map Prod.fst ++ l2.map Prod.fst).Sublist
        (l1.map Prod.fst ++ s :: l2.map Prod.fst) :=
      (List.sublist_cons_self s (l2.map Prod.fst)).append_left (l1.map Prod.fst)
    exact hsub.nodup hnd

/-- C7: a story record with a truthy error flag is skipped entirely:
deleting the record from `results` does not change any output of
`analyze_predictions`, and the story's id is absent from every output
mapping. -/
theorem analyze_error_story_skipped
    (l1 l2 : List (String × StoryData)) (ffc flfc : Forecasts)
    (s : String) (d : StoryData)
    (he : d.error.getD false = true)
    (hnd : ((l1 ++ (s, d) :: l2).map Prod.fst).Nodup) :
    analyze_predictions (l1 ++ (s, d) :: l2) ffc flfc =
        analyze_predictions (l1 ++ l2) ffc flfc ∧
    alookup (analyze_predictions (l1 ++ (s, d) :: l2) ffc flfc).all_scores_flash s
        = none ∧
    alookup (analyze_predictions (l1 ++ (s, d) :: l2) ffc flfc).all_scores_flash_lite s
        = none ∧
    alookup (analyze_predictions (l1 ++ (s, d) :: l2) ffc flfc).story_avg_scores s
        = none ∧
    alookup (analyze_predictions (l1 ++ (s, d) :: l2) ffc flfc).story_titles s
        = none := by
  obtain ⟨hs1, hs2, hnd'⟩ := nodup_keys_middle hnd
  have hR : alookup (l1 ++ (s, d) :: l2) s = some d := alookup_middle l1 l2 s d hs1
  refine ⟨?_, ?_, ?_, ?_, ?_⟩
  · rw [analyze_eq, analyze_eq]
    rw [filterMap_middle_none l1 l2 _ _ (flashContrib_error ffc flfc (s, d) he),
      filterMap_middle_none l1 l2 _ _ (flashLiteContrib_error ffc flfc (s, d) he),
      filterMap_middle_none l1 l2 _ _ (storyContrib_error ffc flfc (s, d) he),
      filterMap_middle_none l1 l2 _ _ (titleContrib_error (s, d) he),
      filterMap_middle_none l1 l2 _ _ (tagsContrib_error (s, d) he)]
  · rw [analyze_eq]
    rw [alookup_filterMap (flashContrib_key ffc flfc) hnd s, hR]
    simp [flashContrib_error ffc flfc (s, d) he]
  · rw [analyze_eq]
    rw [alookup_filterMap (flashLiteContrib_key ffc flfc) hnd s, hR]
    simp [flashLiteContrib_error ffc flfc (s, d) he]
  · rw [analyze_eq]
    show alookup ((List.filterMap (storyContrib ffc flfc) _).map
      fun p => (p.1, listMean p.2)) s = none
    rw [alookup_map_value, alookup_filterMap (storyContrib_key ffc flfc) hnd s, hR]
    simp [storyContrib_error ffc flfc (s, d) he]
  · rw [analyze_eq]
    rw [alookup_filterMap titleContrib_key hnd s, hR]
    simp [titleContrib_error (s, d) he]

/-- Witness for C7 on a one-record results list flagged with an error. -/
theorem analyze_error_story_skipped_witness :
    analyze_predictions [("s1", ⟨some true, some "T", some ["t"], some [⟨"yes"⟩]⟩)]
        [] [] = analyze_predictions [] [] [] ∧
    alookup (analyze_predictions
        [("s1", ⟨some true, some "T", some ["t"], some [⟨"yes"⟩]⟩)] [] []).all_scores_flash
        "s1" = none ∧
    alookup (analyze_predictions
        [("s1", ⟨some true, some "T", some ["t"], some [⟨"yes"⟩]⟩)] [] []).all_scores_flash_lite
        "s1" = none ∧
    alookup (analyze_predictions
        [("s1", ⟨some true, some "T", some ["t"], some [⟨"yes"⟩]⟩)] [] []).story_avg_scores
        "s1" = none ∧
    alookup (analyze_predictions
        [("s1", ⟨some true, some "T", some ["t"], some [⟨"yes"⟩]⟩)] [] []).story_titles
        "s1" = none :=
  analyze_error_story_skipped [] [] [] [] "s1"
    ⟨some true, some "T", some ["t"], some [⟨"yes"⟩]⟩ rfl (by decide)

theorem analyze_flash (results : List (String × StoryData)) (ffc flfc : Forecasts) :
    (analyze_predictions results ffc flfc).all_scores_flash =
      results.filterMap (flashContrib ffc flfc) := by
  rw [analyze_eq]

theorem analyze_flash_lite (results : List (String × StoryData)) (ffc flfc : Forecasts) :
    (analyze_predictions results ffc flfc).all_scores_flash_lite =
      results.filterMap (flashLiteContrib ffc flfc) := by
  rw [analyze_eq]

theorem analyze_story_avg (results : List (String × StoryData)) (ffc flfc : Forecasts) :
    (analyze_predictions results ffc flfc).story_avg_scores =
      (results.filterMap (storyContrib ffc flfc)).map fun p => (p.1, listMean p.2) := by
  rw [analyze_eq]

theorem analyze_model_flash (results : List (String × StoryData)) (ffc flfc : Forecasts) :
    (analyze_predictions results ffc flfc).model_avg_flash =
      listMean ((results.filterMap (flashContrib ffc flfc)).map
        (fun p => p.2.map Prod.snd)).flatten := by
  rw [analyze_eq]

theorem analyze_model_flash_lite (results : List (String × StoryData))
    (ffc flfc : Forecasts) :
    (analyze_predictions results ffc flfc).model_avg_flash_lite =
      listMean ((results.filterMap (flashLiteContrib ffc flfc)).map
        (fun p => p.2.map Prod.snd)).flatten := by
  rw [analyze_eq]

theorem analyze_tag (results : List (String × StoryData)) (ffc flfc : Forecasts) :
    (analyze_predictions results ffc flfc).tag_avg_scores =
      (tagScoresFold (results.filterMap tagsContrib) []
        ((results.filterMap (storyContrib ffc flfc)).map
          fun p => (p.1, listMean p.2))).map fun p => (p.1, listMean p.2) := by
  rw [analyze_eq]

theorem analyze_titles (results : List (String × StoryData)) (ffc flfc : Forecasts) :
    (analyze_predictions results ffc flfc).story_titles =
      results.filterMap titleContrib := by
  rw [analyze_eq]

theorem tagScoresFold_congr (st st' : List (String × List String)) :
    ∀ (avgs : List (String × ℝ)) (ts : List (String × List ℝ)),
      (∀ p ∈ avgs, alookup st p.1 = alookup st' p.1) →
      tagScoresFold st ts avgs = tagScoresFold st' ts avgs
  | [], _, _ => rfl
  | p :: rest, ts, h => by
    unfold tagScoresFold
    rw [List.foldl_cons, List.foldl_cons, h p (List.mem_cons_self p rest)]
    exact tagScoresFold_congr st st' rest _ fun q hq => h q (List.mem_cons_of_mem p hq)

/-- C3 corrected: a non-error story present in `results` but absent from at
least one model's forecast mapping gets no `story_avg_scores` entry and its
record contributes nothing to `tag_avg_scores` (deleting it leaves
`tag_avg_scores` unchanged) — but, contrary to the claim, its title IS
recorded in `story_titles`. -/
theorem analyze_missing_forecast
    (l1 l2 : List (String × StoryData)) (ffc flfc : Forecasts)
    (s : String) (d : StoryData)
    (hnd : ((l1 ++ (s, d) :: l2).map Prod.fst).Nodup)
    (he : d.error.getD false = false)
    (hm : alookup ffc s = none ∨ alookup flfc s = none) :
    alookup (analyze_predictions (l1 ++ (s, d) :: l2) ffc flfc).story_avg_scores s
        = none ∧
    alookup (analyze_predictions (l1 ++ (s, d) :: l2) ffc flfc).story_titles s
        = some (d.title.getD ("Story " ++ s)) ∧
    (analyze_predictions (l1 ++ (s, d) :: l2) ffc flfc).tag_avg_scores =
        (analyze_predictions (l1 ++ l2) ffc flfc).tag_avg_scores := by
  obtain ⟨hs1, hs2, hnd'⟩ := nodup_keys_middle hnd
  have hR : alookup (l1 ++ (s, d) :: l2) s = some d := alookup_middle l1 l2 s d hs1
  have hscon : storyContrib ffc flfc (s, d) = none :=
    storyContrib_missing ffc flfc (s, d) hm
  refine ⟨?_, ?_, ?_⟩
  · rw [analyze_story_avg]
    rw [alookup_map_value, alookup_filterMap (storyContrib_key ffc flfc) hnd s, hR]
    simp [hscon]
  · rw [analyze_titles]
    rw [alookup_filterMap titleContrib_key hnd s, hR]
    simp [titleContrib_ok (s, d) he]
  · rw [analyze_tag, analyze_tag]
    have hsa : List.filterMap (storyContrib ffc flfc) (l1 ++ (s, d) :: l2)
        = List.filterMap (storyContrib ffc flfc) (l1 ++ l2) :=
      filterMap_middle_none l1 l2 _ _ hscon
    rw [hsa]
    congr 1
    apply tagScoresFold_congr
    intro p hp
    have hp1 : p.1 ∈ (l1 ++ l2).map Prod.fst := by
      have h1 : p.1 ∈ (List.filterMap (storyContrib ffc flfc) (l1 ++ l2)).map
          Prod.fst := by
        rcases List.mem_map.1 hp with ⟨q, hq, rfl⟩
        exact List.mem_map_of_mem Prod.fst hq
      exact (keys_filterMap_sublist _ (storyContrib_key ffc flfc) (l1 ++ l2)).subset h1
    have hne : p.1 ≠ s := by
      rintro rfl
      rw [List.map_append] at hp1
      rcases List.mem_append.1 hp1 with h | h
      exacts [hs1 h, hs2 h]
    rw [alookup_filterMap tagsContrib_key hnd p.1,
      alookup_filterMap tagsContrib_key hnd' p.1,
      alookup_middle_ne l1 l2 s p.1 d hne]

/-- C3 counterexample: a non-error story ("s2") that is absent from the
flash forecasts nevertheless appears in `story_titles`, contradicting the
claim that it appears in none of the outputs. -/
theorem missing_forecast_title_counterexample :
    ¬ alookup (analyze_predictions [("s2", ⟨none, some "B", some ["x"], some []⟩)]
        [] [("s2", [])]).story_titles "s2" = none ∧
    alookup (analyze_predictions [("s2", ⟨none, some "B", some ["x"], some []⟩)]
        [] [("s2", [])]).story_titles "s2" = some "B" := by
  have h : alookup (analyze_predictions
      [("s2", ⟨none, some "B", some ["x"], some []⟩)]
      [] [("s2", [])]).story_titles "s2" = some "B" := by
    rw [analyze_titles]
    simp [titleContrib, alookup]
  refine ⟨?_, h⟩
  rw [h]
  simp

/-- Witness for C3 on a story "s2" present in results, forecast by the
flash-lite model but absent from the flash forecasts. -/
theorem analyze_missing_forecast_witness :
    alookup (analyze_predictions [("s2", ⟨none, some "B", some ["x"], some []⟩)]
        [] [("s2", [])]).story_avg_scores "s2" = none ∧
    alookup (analyze_predictions [("s2", ⟨none, some "B", some ["x"], some []⟩)]
        [] [("s2", [])]).story_titles "s2" = some "B" ∧
    (analyze_predictions [("s2", ⟨none, some "B", some ["x"], some []⟩)]
        [] [("s2", [])]).tag_avg_scores =
      (analyze_predictions [] [] [("s2", [])]).tag_avg_scores :=
  analyze_missing_forecast [] [] [] [("s2", [])] "s2"
    ⟨none, some "B", some ["x"], some []⟩ (by decide) rfl (Or.inl rfl)

theorem processQuestions_story_eq_flash (ff fl : ForecastMap) :
    ∀ (qs : List Question) (idx : ℕ),
      (processQuestions ff fl qs idx).2.1 =
        (processQuestions ff fl qs idx).1.map Prod.snd
  | [], _ => rfl
  | q :: rest, idx => by
    unfold processQuestions
    cases h1 : alookup ff (toString idx) <;>
      cases h2 : alookup fl (toString idx) <;>
      simp [h1, h2, processQuestions_story_eq_flash ff fl rest (idx + 1)]

theorem storyContrib_eq_flash (ffc flfc : Forecasts) (e : String × StoryData) :
    storyContrib ffc flfc e =
      (flashContrib ffc flfc e).map fun p => (p.1, p.2.map Prod.snd) := by
  unfold storyContrib flashContrib
  by_cases he : e.2.error.getD false = true
  · simp [he]
  · simp only [Bool.not_eq_true] at he
    cases h1 : alookup ffc e.1 with
    | none => simp [he, h1]
    | some ff =>
      cases h2 : alookup flfc e.1 with
      | none => simp [he, h1, h2]
      | some fl =>
        simp only [he, Bool.false_eq_true, if_false, h1, h2]
        rw [processQuestions_story_eq_flash ff fl]
        by_cases hq : (processQuestions ff fl (e.2.questions.getD []) 0).1 = []
        · simp [hq]
        · simp [hq]

/-- C10: with unique story ids, every story appearing in `story_avg_scores`
also keys the flash score table, and its story average is exactly the mean
of the flash per-question scores — the flash-lite model never contributes
to `story_avg_scores`. -/
theorem story_avg_from_flash
    (results : List (String × StoryData)) (ffc flfc : Forecasts)
    (s : String) (v : ℝ)
    (hnd : (results.map Prod.fst).Nodup)
    (hs : alookup (analyze_predictions results ffc flfc).story_avg_scores s
        = some v) :
    ∃ l, alookup (analyze_predictions results ffc flfc).all_scores_flash s
        = some l ∧ v = listMean (l.map Prod.snd) := by
  rw [analyze_story_avg, alookup_map_value,
    alookup_filterMap (storyContrib_key ffc flfc) hnd s] at hs
  rw [analyze_flash, alookup_filterMap (flashContrib_key ffc flfc) hnd s]
  cases hd : alookup results s with
  | none => rw [hd] at hs; cases hs
  | some d =>
    rw [hd] at hs
    simp only [Option.some_bind] at hs ⊢
    rw [storyContrib_eq_flash ffc flfc (s, d)] at hs
    cases hf : flashContrib ffc flfc (s, d) with
    | none => rw [hf] at hs; cases hs
    | some p =>
      rw [hf] at hs
      simp only [Option.map_some', Option.some_bind, Option.some.injEq] at hs
      exact ⟨p.2, by simp [hf], hs.symm⟩

/-!
Concrete scenario of the specification, section 8: one story with a "yes"
and a "no" question, forecast by both models.
-/

/-- Sample ground truth: story "s1", tags ["mystery"], answers yes then no. -/
def sampleResults : List (String × StoryData) :=
  [("s1", ⟨none, some "A", some ["mystery"], some [⟨"yes"⟩, ⟨"no"⟩]⟩)]

/-- Sample flash forecasts (the spec's model m1): 0.8 and 0.3. -/
noncomputable def sampleFlash : Forecasts := [("s1", [("0", 4/5), ("1", 3/10)])]

/-- Sample flash-lite forecasts (the spec's model m2): 0.6 and 0.4. -/
noncomputable def sampleFlashLite : Forecasts := [("s1", [("0", 3/5), ("1", 2/5)])]

theorem sample_processQuestions :
    processQuestions [("0", 4/5), ("1", 3/10)] [("0", 3/5), ("1", 2/5)]
        [⟨"yes"⟩, ⟨"no"⟩] 0 =
      ([("0", Real.log (4/5)), ("1", Real.log (7/10))],
       [Real.log (4/5), Real.log (7/10)],
       [("0", Real.log (3/5)), ("1", Real.log (3/5))]) := by
  have h0 : toString (0 : ℕ) = "0" := rfl
  have h1 : toString (1 : ℕ) = "1" := rfl
  have hc1 : calculate_log_score (4/5) "yes" = Real.log (4/5) := by
    rw [calc_yes, max_eq_left (by norm_num)]
  have hc2 : calculate_log_score (3/10) "no" = Real.log (7/10) := by
    rw [calc_not_yes _ _ (by decide), max_eq_left (by norm_num)]
    norm_num
  have hc3 : calculate_log_score (3/5) "yes" = Real.log (3/5) := by
    rw [calc_yes, max_eq_left (by norm_num)]
  have hc4 : calculate_log_score (2/5) "no" = Real.log (3/5) := by
    rw [calc_not_yes _ _ (by decide), max_eq_left (by norm_num)]
    norm_num
  simp [processQuestions, alookup, h0, h1, hc1, hc2, hc3, hc4]

theorem sample_storyContrib :
    storyContrib sampleFlash sampleFlashLite
        ("s1", ⟨none, some "A", some ["mystery"], some [⟨"yes"⟩, ⟨"no"⟩]⟩)
      = some ("s1", [Real.log (4/5), Real.log (7/10)]) := by
  have hf : alookup sampleFlash "s1" = some [("0", 4/5), ("1", 3/10)] := by
    simp [sampleFlash, alookup]
  have hl : alookup sampleFlashLite "s1" = some [("0", 3/5), ("1", 2/5)] := by
    simp [sampleFlashLite, alookup]
  simp [storyContrib, hf, hl, sample_processQuestions]

theorem sample_story_avg :
    (analyze_predictions sampleResults sampleFlash sampleFlashLite).story_avg_scores
      = [("s1", listMean [Real.log (4/5), Real.log (7/10)])] := by
  rw [analyze_story_avg]
  simp [sampleResults, sample_storyContrib]

theorem sample_story_avg_lookup :
    alookup (analyze_predictions sampleResults sampleFlash
        sampleFlashLite).story_avg_scores "s1" =
      some (listMean [Real.log (4/5), Real.log (7/10)]) := by
  rw [sample_story_avg]
  simp [alookup]

/-- C2 counterexample: on the spec's own scenario the story-level average
is the mean of the two flash scores only; it differs from the claimed
pooled mean of all four model scores. -/
theorem story_avg_not_pooled_counterexample :
    alookup (analyze_predictions sampleResults sampleFlash
        sampleFlashLite).story_avg_scores "s1" ≠
      some (listMean [Real.log (4/5), Real.log (7/10),
        Real.log (3/5), Real.log (3/5)]) := by
  rw [sample_story_avg]
  intro h
  simp only [alookup, if_pos rfl, Option.some.injEq, listMean] at h
  set a := Real.log (4/5) with ha
  set b := Real.log (7/10) with hb
  set c := Real.log (3/5) with hc
  simp only [List.sum_cons, List.sum_nil, List.length_cons, List.length_nil] at h
  have hab : a + b = c + c := by
    push_cast at h
    have h2 : (a + (b + 0)) / 2 = (a + (b + (c + (c + 0)))) / 4 := by
      convert h using 2
      all_goals norm_num
    linarith
  have hab2 : Real.log ((4/5) * (7/10)) = Real.log ((3/5) * (3/5)) := by
    rw [Real.log_mul (by norm_num) (by norm_num),
      Real.log_mul (by norm_num) (by norm_num)]
    rw [← ha, ← hb, ← hc]
    exact hab
  have := Real.log_injOn_pos (Set.mem_Ioi.2 (by norm_num))
    (Set.mem_Ioi.2 (by norm_num)) hab2
  norm_num at this

/-- C2 amended: on the spec's scenario, `story_avg_scores["s1"]` is the
mean of the flash model's two log scores only — `mean([ln(0.8), ln(0.7)])`;
flash-lite forecasts enter only the flash-lite score table, never the
per-story list. -/
theorem story_avg_flash_only :
    alookup (analyze_predictions sampleResults sampleFlash
        sampleFlashLite).story_avg_scores "s1" =
      some (listMean [Real.log (4/5), Real.log (7/10)]) :=
  sample_story_avg_lookup

/-- Witness for C10 on the sample scenario. -/
theorem story_avg_from_flash_witness :
    ∃ l, alookup (analyze_predictions sampleResults sampleFlash
        sampleFlashLite).all_scores_flash "s1" = some l ∧
      listMean [Real.log (4/5), Real.log (7/10)] = listMean (l.map Prod.snd) :=
  story_avg_from_flash sampleResults sampleFlash sampleFlashLite "s1"
    (listMean [Real.log (4/5), Real.log (7/10)]) (by decide) sample_story_avg_lookup

/-- C9: `rank` returns the k highest-scoring stories in descending score
order and the k lowest-scoring stories in ascending score order: each
component is score-sorted and is the k-prefix of a permutation of the
input; on `{"a": -0.1, "b": -0.5, "c": -0.05}` with k = 2 it yields
most-predictable ["c", "a"] and least-predictable ["b", "a"]. -/
theorem rank_top_bottom_k :
    ((rank [("a", -(1/10)), ("b", -(1/2)), ("c", -(1/20))] 2).1.map Prod.fst
        = ["c", "a"] ∧
      (rank [("a", -(1/10)), ("b", -(1/2)), ("c", -(1/20))] 2).2.map Prod.fst
        = ["b", "a"]) ∧
    (∀ (l : List (String × ℝ)) (k : ℕ),
      (rank l k).1.Sorted (fun x y => x.2 ≥ y.2) ∧
      (rank l k).2.Sorted (fun x y => x.2 ≤ y.2) ∧
      (∃ l₁, l.Perm l₁ ∧ (rank l k).1 = l₁.take k) ∧
      (∃ l₂, l.Perm l₂ ∧ (rank l k).2 = l₂.take k)) := by
  constructor
  · constructor
    · norm_num [rank, List.insertionSort, List.orderedInsert]
    · norm_num [rank, List.insertionSort, List.orderedInsert]
  · intro l k
    haveI ht1 : IsTotal (String × ℝ) (fun x y => x.2 ≥ y.2) :=
      ⟨fun a b => le_total b.2 a.2⟩
    haveI ht2 : IsTrans (String × ℝ) (fun x y => x.2 ≥ y.2) :=
      ⟨fun _ _ _ h1 h2 => le_trans h2 h1⟩
    haveI hs1 : IsTotal (String × ℝ) (fun x y => x.2 ≤ y.2) :=
      ⟨fun a b => le_total a.2 b.2⟩
    haveI hs2 : IsTrans (String × ℝ) (fun x y => x.2 ≤ y.2) :=
      ⟨fun _ _ _ h1 h2 => le_trans h1 h2⟩
    refine ⟨?_, ?_, ?_, ?_⟩
    · exact (List.sorted_insertionSort _ l).sublist (List.take_sublist _ _)
    · exact (List.sorted_insertionSort _ l).sublist (List.take_sublist _ _)
    · exact ⟨_, (List.perm_insertionSort _ l).symm, rfl⟩
    · exact ⟨_, (List.perm_insertionSort _ l).symm, rfl⟩

/-!
Order-independence machinery.
-/

theorem flashContrib_congr {ffc ffc' flfc flfc' : Forecasts}
    (hf : ∀ s, alookup ffc s = alookup ffc' s)
    (hl : ∀ s, alookup flfc s = alookup flfc' s) (e : String × StoryData) :
    flashContrib ffc flfc e = flashContrib ffc' flfc' e := by
  unfold flashContrib
  rw [hf e.1, hl e.1]

theorem flashLiteContrib_congr {ffc ffc' flfc flfc' : Forecasts}
    (hf : ∀ s, alookup ffc s = alookup ffc' s)
    (hl : ∀ s, alookup flfc s = alookup flfc' s) (e : String × StoryData) :
    flashLiteContrib ffc flfc e = flashLiteContrib ffc' flfc' e := by
  unfold flashLiteContrib
  rw [hf e.1, hl e.1]

theorem storyContrib_congr {ffc ffc' flfc flfc' : Forecasts}
    (hf : ∀ s, alookup ffc s = alookup ffc' s)
    (hl : ∀ s, alookup flfc s = alookup flfc' s) (e : String × StoryData) :
    storyContrib ffc flfc e = storyContrib ffc' flfc' e := by
  unfold storyContrib
  rw [hf e.1, hl e.1]

theorem listMean_perm {l l' : List ℝ} (h : l.Perm l') : listMean l = listMean l' := by
  unfold listMean
  rw [h.sum_eq, h.length_eq]

/-- The pool of story averages collected for tag `t` by the tag loop (one
copy per occurrence of `t` in the story's tag list). -/
noncomputable def tagPool (st : List (String × List String))
    (avgs : List (String × ℝ)) (t : String) : List ℝ :=
  avgs.flatMap fun p =>
    ((alookup st p.1).getD []).filterMap fun t' => if t' = t then some p.2 else none

theorem alookup_dlAppend {α : Type} (k : String) (v : α) :
    ∀ (ts : List (String × List α)) (t : String),
      alookup (dlAppend ts k v) t =
        if k = t then some ((alookup ts t).getD [] ++ [v]) else alookup ts t
  | [], t => by
    by_cases hk : k = t <;> simp [dlAppend, alookup, hk]
  | (k', l) :: rest, t => by
    by_cases h1 : k' = k
    · subst h1
      by_cases h2 : k' = t <;> simp [dlAppend, alookup, h2]
    · by_cases h2 : k' = t
      · subst h2
        have h3 : ¬ k = k' := fun h => h1 h.symm
        simp [dlAppend, alookup, h1, h3]
      · simp [dlAppend, alookup, h1, h2, alookup_dlAppend k v rest t]

theorem alookup_tags_foldl (a : ℝ) (t : String) :
    ∀ (tags : List String) (ts : List (String × List ℝ)),
      alookup (tags.foldl (fun ts t' => dlAppend ts t' a) ts) t =
        match alookup ts t with
        | some l =>
          some (l ++ tags.filterMap fun t' => if t' = t then some a else none)
        | none =>
          if (tags.filterMap fun t' => if t' = t then some a else none).isEmpty
          then none
          else some (tags.filterMap fun t' => if t' = t then some a else none)
  | [], ts => by
    cases h : alookup ts t <;> simp [h]
  | t' :: tags, ts => by
    rw [List.foldl_cons, alookup_tags_foldl a t tags (dlAppend ts t' a),
      alookup_dlAppend]
    by_cases h2 : t' = t
    · subst h2
      simp only [if_pos rfl, List.filterMap_cons]
      cases h : alookup ts t' <;> simp [h, List.append_assoc]
    · simp only [if_neg h2, List.filterMap_cons]

theorem alookup_tagScoresFold (st : List (String × List String)) (t : String) :
    ∀ (avgs : List (String × ℝ)) (ts : List (String × List ℝ)),
      alookup (tagScoresFold st ts avgs) t =
        match alookup ts t with
        | some l => some (l ++ tagPool st avgs t)
        | none =>
          if (tagPool st avgs t).isEmpty then none else some (tagPool st avgs t)
  | [], ts => by
    cases h : alookup ts t <;> simp [tagScoresFold, tagPool, h]
  | p :: rest, ts => by
    have hstep : tagScoresFold st ts (p :: rest) =
        tagScoresFold st (((alookup st p.1).getD []).foldl
          (fun ts t' => dlAppend ts t' p.2) ts) rest := rfl
    rw [hstep, alookup_tagScoresFold st t rest, alookup_tags_foldl p.2 t]
    have hpool : tagPool st (p :: rest) t =
        (((alookup st p.1).getD []).filterMap
          fun t' => if t' = t then some p.2 else none) ++ tagPool st rest t := by
      simp [tagPool]
    rw [hpool]
    set c := ((alookup st p.1).getD []).filterMap
      fun t' => if t' = t then some p.2 else none with hc
    cases h : alookup ts t with
    | some l => simp [h, List.append_assoc]
    | none =>
      by_cases hc0 : c = []
      · simp [h, hc0]
      · simp [h, hc0, List.isEmpty_iff]

theorem alookup_tagScoresFold_nil (st : List (String × List String))
    (t : String) (avgs : List (String × ℝ)) :
    alookup (tagScoresFold st [] avgs) t =
      if (tagPool st avgs t).isEmpty then none
      else some (tagPool st avgs t) := by
  rw [alookup_tagScoresFold st t avgs []]
  rfl

theorem tagPool_congr {st st' : List (String × List String)}
    {avgs : List (String × ℝ)} {t : String}
    (h : ∀ p ∈ avgs, alookup st p.1 = alookup st' p.1) :
    tagPool st avgs t = tagPool st' avgs t := by
  unfold tagPool
  rw [List.flatMap_def, List.flatMap_def]
  congr 1
  exact List.map_congr_left fun p hp => by rw [h p hp]

theorem tagPool_perm (st : List (String × List String)) (t : String)
    {avgs avgs' : List (String × ℝ)} (hp : avgs.Perm avgs') :
    (tagPool st avgs t).Perm (tagPool st avgs' t) := by
  unfold tagPool
  rw [List.flatMap_def, List.flatMap_def]
  exact (hp.map _).flatten

/-- C8: `analyze_predictions` is deterministic and order-independent —
permuting the enumeration order of the results and forecast mappings
(equal as sets of key-value pairs, with unique keys) leaves `all_scores`
(both models), `story_avg_scores`, `model_avg_scores` and
`tag_avg_scores` identical as mappings. -/
theorem analyze_order_independent
    (results results' : List (String × StoryData)) (ffc ffc' flfc flfc' : Forecasts)
    (hr : results.Perm results') (hf : ffc.Perm ffc') (hl : flfc.Perm flfc')
    (hrn : (results.map Prod.fst).Nodup) (hfn : (ffc.map Prod.fst).Nodup)
    (hln : (flfc.map Prod.fst).Nodup) :
    (∀ s, alookup (analyze_predictions results ffc flfc).all_scores_flash s =
        alookup (analyze_predictions results' ffc' flfc').all_scores_flash s) ∧
    (∀ s, alookup (analyze_predictions results ffc flfc).all_scores_flash_lite s =
        alookup (analyze_predictions results' ffc' flfc').all_scores_flash_lite s) ∧
    (∀ s, alookup (analyze_predictions results ffc flfc).story_avg_scores s =
        alookup (analyze_predictions results' ffc' flfc').story_avg_scores s) ∧
    (analyze_predictions results ffc flfc).model_avg_flash =
        (analyze_predictions results' ffc' flfc').model_avg_flash ∧
    (analyze_predictions results ffc flfc).model_avg_flash_lite =
        (analyze_predictions results' ffc' flfc').model_avg_flash_lite ∧
    (∀ t, alookup (analyze_predictions results ffc flfc).tag_avg_scores t =
        alookup (analyze_predictions results' ffc' flfc').tag_avg_scores t) := by
  have hfl : ∀ s, alookup ffc s = alookup ffc' s := alookup_perm hf hfn
  have hll : ∀ s, alookup flfc s = alookup flfc' s := alookup_perm hl hln
  have hFc : List.filterMap (flashContrib ffc' flfc') results'
      = List.filterMap (flashContrib ffc flfc) results' :=
    List.filterMap_congr fun e _ => (flashContrib_congr hfl hll e).symm
  have hLc : List.filterMap (flashLiteContrib ffc' flfc') results'
      = List.filterMap (flashLiteContrib ffc flfc) results' :=
    List.filterMap_congr fun e _ => (flashLiteContrib_congr hfl hll e).symm
  have hSc : List.filterMap (storyContrib ffc' flfc') results'
      = List.filterMap (storyContrib ffc flfc) results' :=
    List.filterMap_congr fun e _ => (storyContrib_congr hfl hll e).symm
  have hFp := hr.filterMap (flashContrib ffc flfc)
  have hLp := hr.filterMap (flashLiteContrib ffc flfc)
  have hSp := hr.filterMap (storyContrib ffc flfc)
  have hTp := hr.filterMap tagsContrib
  have hFn := nodup_keys_filterMap (flashContrib_key ffc flfc) hrn
  have hLn := nodup_keys_filterMap (flashLiteContrib_key ffc flfc) hrn
  have hSn := nodup_keys_filterMap (storyContrib_key ffc flfc) hrn
  have hTn := nodup_keys_filterMap tagsContrib_key hrn
  refine ⟨?_, ?_, ?_, ?_, ?_, ?_⟩
  · intro s
    rw [analyze_flash, analyze_flash, hFc]
    exact alookup_perm hFp hFn s
  · intro s
    rw [analyze_flash_lite, analyze_flash_lite, hLc]
    exact alookup_perm hLp hLn s
  · intro s
    rw [analyze_story_avg, analyze_story_avg, hSc]
    rw [alookup_map_value, alookup_map_value, alookup_perm hSp hSn s]
  · rw [analyze_model_flash, analyze_model_flash, hFc]
    exact listMean_perm (hFp.map _).flatten
  · rw [analyze_model_flash_lite, analyze_model_flash_lite, hLc]
    exact listMean_perm (hLp.map _).flatten
  · intro t
    rw [analyze_tag, analyze_tag, hSc]
    rw [alookup_map_value, alookup_map_value,
      alookup_tagScoresFold_nil, alookup_tagScoresFold_nil]
    set AV := (List.filterMap (storyContrib ffc flfc) results).map
      fun p => (p.1, listMean p.2) with hAV
    set AV' := (List.filterMap (storyContrib ffc flfc) results').map
      fun p => (p.1, listMean p.2) with hAV'
    have hAVp : AV.Perm AV' := hSp.map _
    have hpc : tagPool (List.filterMap tagsContrib results') AV' t
        = tagPool (List.filterMap tagsContrib results) AV' t :=
      tagPool_congr fun p _ => (alookup_perm hTp hTn p.1).symm
    rw [hpc]
    have hpp : (tagPool (List.filterMap tagsContrib results) AV t).Perm
        (tagPool (List.filterMap tagsContrib results) AV' t) :=
      tagPool_perm _ t hAVp
    by_cases h0 : tagPool (List.filterMap tagsContrib results) AV t = []
    · have h0' : tagPool (List.filterMap tagsContrib results) AV' t = [] := by
        rw [h0] at hpp
        exact hpp.symm.eq_nil
      rw [h0, h0']
    · have h0' : tagPool (List.filterMap tagsContrib results) AV' t ≠ [] := by
        intro hn
        rw [hn] at hpp
        exact h0 hpp.eq_nil
      rw [List.isEmpty_eq_false.2 h0, List.isEmpty_eq_false.2 h0']
      simp [listMean_perm hpp]

/-- Witness for C8: two stories enumerated in the two possible orders. -/
theorem analyze_order_independent_witness :
    (analyze_predictions
        [("a", ⟨none, none, none, some [⟨"yes"⟩]⟩),
         ("b", ⟨none, none, none, some [⟨"no"⟩]⟩)]
        [("a", [("0", 1/2)]), ("b", [("0", 1/2)])]
        [("a", [("0", 1/2)]), ("b", [("0", 1/2)])]).model_avg_flash =
      (analyze_predictions
        [("b", ⟨none, none, none, some [⟨"no"⟩]⟩),
         ("a", ⟨none, none, none, some [⟨"yes"⟩]⟩)]
        [("a", [("0", 1/2)]), ("b", [("0", 1/2)])]
        [("a", [("0", 1/2)]), ("b", [("0", 1/2)])]).model_avg_flash ∧
    alookup (analyze_predictions
        [("a", ⟨none, none, none, some [⟨"yes"⟩]⟩),
         ("b", ⟨none, none, none, some [⟨"no"⟩]⟩)]
        [("a", [("0", 1/2)]), ("b", [("0", 1/2)])]
        [("a", [("0", 1/2)]), ("b", [("0", 1/2)])]).story_avg_scores "a" =
      alookup (analyze_predictions
        [("b", ⟨none, none, none, some [⟨"no"⟩]⟩),
         ("a", ⟨none, none, none, some [⟨"yes"⟩]⟩)]
        [("a", [("0", 1/2)]), ("b", [("0", 1/2)])]
        [("a", [("0", 1/2)]), ("b", [("0", 1/2)])]).story_avg_scores "a" := by
  have h := analyze_order_independent
    [("a", ⟨none, none, none, some [⟨"yes"⟩]⟩),
     ("b", ⟨none, none, none, some [⟨"no"⟩]⟩)]
    [("b", ⟨none, none, none, some [⟨"no"⟩]⟩),
     ("a", ⟨none, none, none, some [⟨"yes"⟩]⟩)]
    [("a", [("0", 1/2)]), ("b", [("0", 1/2)])]
    [("a", [("0", 1/2)]), ("b", [("0", 1/2)])]
    [("a", [("0", 1/2)]), ("b", [("0", 1/2)])]
    [("a", [("0", 1/2)]), ("b", [("0", 1/2)])]
    (List.Perm.swap _ _ _) (List.Perm.refl _) (List.Perm.refl _)
    (by decide) (by decide) (by decide)
  exact ⟨h.2.2.2.1, h.2.2.1 "a"⟩

end StoryPredictor
